import Mathlib

/-!
Shallow embedding of the two Anchor programs of the repository:

* `src/contracts/programs/meta_treasury/src/lib.rs` (`meta_treasury`)
* `src/contracts/programs/meta_nft/src/lib.rs` (`meta_nft`)

Machine integers (`u64`, `u128`, `u16`) are modelled as `Nat` together with
explicit bounds (`U64_MOD`, `U128_MOD`); the Rust `checked_*` operations
return `Option Nat` exactly where the source calls `checked_add`,
`checked_sub`, `checked_mul`, `checked_div`.  Every instruction handler is a
pure function from the persisted account state (plus the pubkey that signed,
standing for the Anchor account-constraint checks that run before the
handler body) to `Except E newState`: Solana rolls the whole transaction
back on any error, so an `Except.error` result leaves the persisted state
unchanged by construction, and a failed `.unwrap()` (a panic) is modelled as
the dedicated `ArithmeticFault` error.  Native lamport moves performed by
CPI (`system_program::transfer`, direct `try_borrow_mut_lamports`
adjustments) act on accounts outside the persisted state records; where a
claim needs them they are mirrored as explicit balance fields or as the
returned paid-out amount.
-/

namespace Hive

/-- A Solana public key, as an abstract identity. -/
abbrev Pubkey := Nat

/-- `2 ^ 64`, the modulus of Rust's `u64`. -/
def U64_MOD : Nat := 2 ^ 64

/-- `2 ^ 128`, the modulus of Rust's `u128`. -/
def U128_MOD : Nat := 2 ^ 128

/-- Rust `u64::checked_add`: `none` exactly when the sum overflows. -/
def checked_add64 (a b : Nat) : Option Nat :=
  if a + b < U64_MOD then some (a + b) else none

/-- Rust `u64::checked_sub`: `none` exactly when the difference underflows. -/
def checked_sub64 (a b : Nat) : Option Nat :=
  if b ≤ a then some (a - b) else none

/-- Rust `u128::checked_mul`: `none` exactly when the product overflows. -/
def checked_mul128 (a b : Nat) : Option Nat :=
  if a * b < U128_MOD then some (a * b) else none

/-- Rust `u128::checked_div`: `none` exactly on division by zero. -/
def checked_div128 (a b : Nat) : Option Nat :=
  if b = 0 then none else some (a / b)

/-- The persisted `TreasuryState` account of `meta_treasury`
(`src/contracts/programs/meta_treasury/src/lib.rs`, lines 248-257). -/
structure TreasuryState where
  authority : Pubkey
  emergency_multisig : Pubkey
  total_sol : Nat
  profit_pool : Nat
  is_initialized : Bool
  bump : Nat
deriving Repr, DecidableEq

/-- The `MetaTreasuryError` codes of the source, plus two outcomes the Anchor
runtime produces outside that enum: `ConstraintViolation` for a failed
account `constraint = ...` (the signer checks of `AddProfits`,
`DistributeProfits`, `WithdrawEmergency`, `UpdateMultisig`), and
`ArithmeticFault` for a panicking `.unwrap()` on a failed checked
operation. -/
inductive MetaTreasuryError where
  | NotInitialized
  | InvalidAmount
  | NoProfits
  | InvalidShare
  | InsufficientFunds
  | ConstraintViolation
  | ArithmeticFault
deriving Repr, DecidableEq

/-- `initialize_treasury` (lib.rs 11-41): creates the state with
`total_sol = amount`, `profit_pool = 0`, the two authorities and
`is_initialized = true`.  The SOL deposit itself is a CPI into the system
program and is mirrored by `total_sol`. -/
def initialize_treasury (authority multisig : Pubkey) (amount bump : Nat) :
    TreasuryState :=
  { authority := authority
    emergency_multisig := multisig
    total_sol := amount
    profit_pool := 0
    is_initialized := true
    bump := bump }

/-- `add_profits` (lib.rs 44-73).  `signer` is the `authority` account of
`AddProfits`, checked by `constraint = authority.key() == treasury.authority`
before the handler runs. -/
def add_profits (signer : Pubkey) (t : TreasuryState) (amount : Nat) :
    Except MetaTreasuryError TreasuryState :=
  if signer ≠ t.authority then .error .ConstraintViolation
  else if t.is_initialized = false then .error .NotInitialized
  else if amount = 0 then .error .InvalidAmount
  else
    match checked_add64 t.total_sol amount, checked_add64 t.profit_pool amount with
    | some total, some pool =>
        .ok { t with total_sol := total, profit_pool := pool }
    | _, _ => .error .ArithmeticFault

/-- `distribute_profits` (lib.rs 76-117).  Returns the new state together
with the amount moved to the holder's account by the direct lamport
adjustment.  The `as u64` cast of the source is the `% U64_MOD`. -/
def distribute_profits (signer : Pubkey) (t : TreasuryState)
    (holder_share_bps : Nat) : Except MetaTreasuryError (TreasuryState × Nat) :=
  if signer ≠ t.authority then .error .ConstraintViolation
  else if t.is_initialized = false then .error .NotInitialized
  else if t.profit_pool = 0 then .error .NoProfits
  else if ¬ (0 < holder_share_bps ∧ holder_share_bps ≤ 10000) then
    .error .InvalidShare
  else
    match checked_mul128 t.profit_pool holder_share_bps with
    | none => .error .ArithmeticFault
    | some prod =>
      match checked_div128 prod 10000 with
      | none => .error .ArithmeticFault
      | some q =>
        let distribution_amount := q % U64_MOD
        if distribution_amount = 0 then .error .InvalidAmount
        else if ¬ distribution_amount ≤ t.profit_pool then
          .error .InsufficientFunds
        else
          match checked_sub64 t.profit_pool distribution_amount,
                checked_sub64 t.total_sol distribution_amount with
          | some pool, some total =>
              .ok ({ t with profit_pool := pool, total_sol := total },
                   distribution_amount)
          | _, _ => .error .ArithmeticFault

/-- `withdraw_emergency` (lib.rs 120-141).  `signer` is the `multisig`
signer of `WithdrawEmergency`, checked by
`constraint = multisig.key() == treasury.emergency_multisig`.  Returns the
new state and the amount moved to the destination account. -/
def withdraw_emergency (signer : Pubkey) (t : TreasuryState) (amount : Nat) :
    Except MetaTreasuryError (TreasuryState × Nat) :=
  if signer ≠ t.emergency_multisig then .error .ConstraintViolation
  else if t.is_initialized = false then .error .NotInitialized
  else if ¬ (0 < amount ∧ amount ≤ t.total_sol) then .error .InsufficientFunds
  else
    match checked_sub64 t.total_sol amount with
    | some total => .ok ({ t with total_sol := total }, amount)
    | none => .error .ArithmeticFault

/-- `update_multisig` (lib.rs 144-159).  `signer` is the `multisig` signer of
`UpdateMultisig`, checked against the current `emergency_multisig`. -/
def update_multisig (signer : Pubkey) (t : TreasuryState)
    (new_multisig : Pubkey) : Except MetaTreasuryError TreasuryState :=
  if signer ≠ t.emergency_multisig then .error .ConstraintViolation
  else if t.is_initialized = false then .error .NotInitialized
  else .ok { t with emergency_multisig := new_multisig }

/-- Decidable equality of results, so that concrete runs of the handlers can
be settled by `decide`. -/
instance {ε α : Type} [DecidableEq ε] [DecidableEq α] : DecidableEq (Except ε α) := fun a b =>
  match a, b with
  | .error e, .error f =>
      if h : e = f then .isTrue (by rw [h]) else .isFalse (fun hc => h (by injection hc))
  | .error _, .ok _ => .isFalse (fun hc => by injection hc)
  | .ok _, .error _ => .isFalse (fun hc => by injection hc)
  | .ok x, .ok y =>
      if h : x = y then .isTrue (by rw [h]) else .isFalse (fun hc => h (by injection hc))

/-- The treasury states reachable from `initialize_treasury` by any sequence
of successful instructions, with arbitrary signers and `u64`/`u16`-ranged
arguments. -/
inductive Reachable : TreasuryState → Prop where
  | init (a m : Pubkey) (amount bump : Nat) (h : amount < U64_MOD) :
      Reachable (initialize_treasury a m amount bump)
  | add {s s' : TreasuryState} (signer : Pubkey) (amount : Nat) :
      Reachable s → add_profits signer s amount = .ok s' → Reachable s'
  | dist {s : TreasuryState} {r : TreasuryState × Nat} (signer : Pubkey)
      (bps : Nat) :
      Reachable s → distribute_profits signer s bps = .ok r → Reachable r.1
  | withdraw {s : TreasuryState} {r : TreasuryState × Nat} (signer : Pubkey)
      (amount : Nat) :
      Reachable s → withdraw_emergency signer s amount = .ok r → Reachable r.1
  | upd {s s' : TreasuryState} (signer nm : Pubkey) :
      Reachable s → update_multisig signer s nm = .ok s' → Reachable s'

/-! ### Inversion and evaluation lemmas for the treasury handlers

Shared helpers: each unpacks exactly which guards a successful run passed,
or evaluates a handler whose guards are known to pass. -/

theorem add_profits_ok_inv {signer : Pubkey} {t : TreasuryState} {amount : Nat}
    {t' : TreasuryState} (h : add_profits signer t amount = .ok t') :
    signer = t.authority ∧ t.is_initialized = true ∧ 0 < amount ∧
    t.total_sol + amount < U64_MOD ∧ t.profit_pool + amount < U64_MOD ∧
    t' = { t with total_sol := t.total_sol + amount,
                  profit_pool := t.profit_pool + amount } := by
  unfold add_profits at h
  split at h
  · simp at h
  rename_i h1
  push_neg at h1
  split at h
  · simp at h
  rename_i h2
  split at h
  · simp at h
  rename_i h3
  split at h
  case h_2 => simp at h
  rename_i total pool heq1 heq2
  unfold checked_add64 at heq1 heq2
  split at heq1
  case isFalse => simp at heq1
  split at heq2
  case isFalse => simp at heq2
  injection heq1 with e1
  injection heq2 with e2
  simp only [Except.ok.injEq] at h
  subst e1
  subst e2
  exact ⟨h1, by simpa using h2, Nat.pos_of_ne_zero h3, by assumption, by assumption, h.symm⟩

theorem add_profits_eq_ok {signer : Pubkey} {t : TreasuryState} {amount : Nat}
    (hsig : signer = t.authority) (hinit : t.is_initialized = true) (h0 : 0 < amount)
    (ht : t.total_sol + amount < U64_MOD) (hp : t.profit_pool + amount < U64_MOD) :
    add_profits signer t amount
      = .ok { t with total_sol := t.total_sol + amount,
                     profit_pool := t.profit_pool + amount } := by
  unfold add_profits checked_add64
  rw [if_neg (by simp [hsig]), if_neg (by simp [hinit]),
    if_neg (Nat.pos_iff_ne_zero.mp h0), if_pos ht, if_pos hp]

theorem withdraw_emergency_ok_inv {signer : Pubkey} {t : TreasuryState} {amount : Nat}
    {r : TreasuryState × Nat} (h : withdraw_emergency signer t amount = .ok r) :
    signer = t.emergency_multisig ∧ t.is_initialized = true ∧ 0 < amount ∧
    amount ≤ t.total_sol ∧
    r = ({ t with total_sol := t.total_sol - amount }, amount) := by
  unfold withdraw_emergency at h
  split at h
  · simp at h
  rename_i h1
  push_neg at h1
  split at h
  · simp at h
  rename_i h2
  split at h
  · simp at h
  rename_i h3
  push_neg at h3
  rcases h3 with ⟨ha, hb⟩
  split at h
  case h_2 => simp at h
  rename_i total heq
  unfold checked_sub64 at heq
  split at heq
  case isFalse => exact absurd hb (by assumption)
  injection heq with e
  simp only [Except.ok.injEq] at h
  subst e
  exact ⟨h1, by simpa using h2, ha, hb, h.symm⟩

theorem withdraw_emergency_eq_ok {signer : Pubkey} {t : TreasuryState} {amount : Nat}
    (hsig : signer = t.emergency_multisig) (hinit : t.is_initialized = true)
    (h0 : 0 < amount) (hle : amount ≤ t.total_sol) :
    withdraw_emergency signer t amount
      = .ok ({ t with total_sol := t.total_sol - amount }, amount) := by
  unfold withdraw_emergency checked_sub64
  rw [if_neg (by simp [hsig]), if_neg (by simp [hinit]),
    if_neg (not_not_intro ⟨h0, hle⟩), if_pos hle]

theorem update_multisig_ok_inv {signer : Pubkey} {t : TreasuryState} {nm : Pubkey}
    {t' : TreasuryState} (h : update_multisig signer t nm = .ok t') :
    signer = t.emergency_multisig ∧ t.is_initialized = true ∧
    t' = { t with emergency_multisig := nm } := by
  unfold update_multisig at h
  split at h
  · simp at h
  rename_i h1
  push_neg at h1
  split at h
  · simp at h
  rename_i h2
  simp only [Except.ok.injEq] at h
  exact ⟨h1, by simpa using h2, h.symm⟩

theorem update_multisig_eq_ok {signer : Pubkey} {t : TreasuryState} {nm : Pubkey}
    (hsig : signer = t.emergency_multisig) (hinit : t.is_initialized = true) :
    update_multisig signer t nm = .ok { t with emergency_multisig := nm } := by
  unfold update_multisig
  rw [if_neg (by simp [hsig]), if_neg (by simp [hinit])]

theorem distribute_le_pool {p b : Nat} (hble : b ≤ 10000) : p * b / 10000 ≤ p := by
  calc p * b / 10000 ≤ p * 10000 / 10000 :=
        Nat.div_le_div_right (Nat.mul_le_mul_left p hble)
    _ = p := Nat.mul_div_cancel p (by norm_num)

theorem distribute_profits_eq_ok {signer : Pubkey} {t : TreasuryState} {b : Nat}
    (hsig : signer = t.authority) (hinit : t.is_initialized = true)
    (hpool : 0 < t.profit_pool) (hwf : t.profit_pool ≤ t.total_sol)
    (hlt : t.profit_pool < U64_MOD)
    (hb0 : 0 < b) (hble : b ≤ 10000) (hd : 0 < t.profit_pool * b / 10000) :
    distribute_profits signer t b
      = .ok ({ t with
                profit_pool := t.profit_pool - t.profit_pool * b / 10000,
                total_sol := t.total_sol - t.profit_pool * b / 10000 },
             t.profit_pool * b / 10000) := by
  subst hsig
  have hdle : t.profit_pool * b / 10000 ≤ t.profit_pool := distribute_le_pool hble
  have hmod : t.profit_pool * b / 10000 % U64_MOD = t.profit_pool * b / 10000 :=
    Nat.mod_eq_of_lt (lt_of_le_of_lt hdle hlt)
  have hmul : t.profit_pool * b < U128_MOD := by
    calc t.profit_pool * b ≤ t.profit_pool * 10000 := Nat.mul_le_mul_left _ hble
      _ < U64_MOD * 10000 :=
          Nat.mul_lt_mul_of_lt_of_le hlt (le_refl 10000) (by norm_num)
      _ < U128_MOD := by norm_num [U64_MOD, U128_MOD]
  have hp0 : t.profit_pool ≠ 0 := Nat.pos_iff_ne_zero.mp hpool
  have hd0 : t.profit_pool * b / 10000 ≠ 0 := Nat.pos_iff_ne_zero.mp hd
  have hdt : t.profit_pool * b / 10000 ≤ t.total_sol := le_trans hdle hwf
  simp [distribute_profits, checked_mul128, checked_div128, checked_sub64,
    hinit, hp0, hb0, hble, hmul, hmod, hd0, hdle, hdt]

theorem distribute_profits_ok_inv {signer : Pubkey} {t : TreasuryState} {b : Nat}
    {r : TreasuryState × Nat} (h : distribute_profits signer t b = .ok r) :
    signer = t.authority ∧ t.is_initialized = true ∧ 0 < t.profit_pool ∧
    0 < b ∧ b ≤ 10000 ∧
    0 < t.profit_pool * b / 10000 % U64_MOD ∧
    t.profit_pool * b / 10000 % U64_MOD ≤ t.profit_pool ∧
    t.profit_pool * b / 10000 % U64_MOD ≤ t.total_sol ∧
    r = ({ t with
            profit_pool := t.profit_pool - t.profit_pool * b / 10000 % U64_MOD,
            total_sol := t.total_sol - t.profit_pool * b / 10000 % U64_MOD },
         t.profit_pool * b / 10000 % U64_MOD) := by
  unfold distribute_profits at h
  split at h
  · simp at h
  rename_i h1
  push_neg at h1
  split at h
  · simp at h
  rename_i h2
  split at h
  · simp at h
  rename_i h3
  split at h
  · simp at h
  rename_i h4
  push_neg at h4
  split at h
  · simp at h
  rename_i prod heqm
  unfold checked_mul128 at heqm
  split at heqm
  case isFalse => simp at heqm
  rename_i hmul
  injection heqm with em
  split at h
  · simp at h
  rename_i q heqd
  unfold checked_div128 at heqd
  rw [if_neg (by norm_num)] at heqd
  injection heqd with ed
  simp only [] at h
  split at h
  · simp at h
  rename_i h5
  split at h
  · simp at h
  rename_i h6
  push_neg at h6
  split at h
  case h_2 => simp at h
  rename_i pool total heq1 heq2
  unfold checked_sub64 at heq1 heq2
  split at heq1
  case isFalse => exact absurd h6 (by assumption)
  split at heq2
  case isFalse => simp at heq2
  rename_i hle2
  injection heq1 with e1
  injection heq2 with e2
  simp only [Except.ok.injEq] at h
  subst em
  subst ed
  subst e1
  subst e2
  exact ⟨h1, by simpa using h2, Nat.pos_of_ne_zero h3, h4.1, h4.2,
    Nat.pos_of_ne_zero h5, h6, hle2, h.symm⟩

theorem distribute_profits_bad_share_error {signer : Pubkey} {t : TreasuryState}
    {b : Nat} (hsig : signer = t.authority) (hinit : t.is_initialized = true)
    (hpool : 0 < t.profit_pool) (hb : b = 0 ∨ 10000 < b) :
    distribute_profits signer t b = .error .InvalidShare := by
  subst hsig
  unfold distribute_profits
  rw [if_neg (by simp), if_neg (by simp [hinit]),
    if_neg (Nat.pos_iff_ne_zero.mp hpool),
    if_pos (by rcases hb with h | h <;> omega)]

/-! ### The `meta_nft` program (`src/contracts/programs/meta_nft/src/lib.rs`) -/

/-- The persisted `CollectionConfig` account (lib.rs 320-328). -/
structure CollectionConfig where
  authority : Pubkey
  total_minted : Nat
  mint_price_lamports : Nat
  is_active : Bool
  bump : Nat
deriving Repr, DecidableEq

/-- The persisted `StrategyNftData` account (lib.rs 330-349). -/
structure StrategyNftData where
  mint : Pubkey
  strategy_id : String
  genes_hash : String
  owner : Pubkey
  minted_at : Int
  mint_price : Nat
  archetype : String
  generation : Nat
  fitness_score : Nat
  total_pnl : Int
  win_rate : Nat
  trades_executed : Nat
  bump : Nat
deriving Repr, DecidableEq

/-- The `MetaNftError` codes of the source (lib.rs 351-359), plus the
runtime-level outcomes of `mint_strategy_nft`: `DuplicateCreation` when the
Anchor `init` of the `strategy_nft` PDA finds the address already in use,
and `TransferFailed` when the payer cannot fund the fee transfer CPI. -/
inductive MetaNftError where
  | MintingPaused
  | Unauthorized
  | InvalidStrategyData
  | DuplicateCreation
  | TransferFailed
  | ArithmeticFault
deriving Repr, DecidableEq

/-- The caller-supplied instruction arguments of `mint_strategy_nft`
(lib.rs 43-56). -/
structure MintArgs where
  strategy_id : String
  genes_hash : String
  name : String
  symbol : String
  uri : String
  archetype : String
  generation : Nat
  fitness_score : Nat
  total_pnl : Int
  win_rate : Nat
  trades_executed : Nat
deriving Repr, DecidableEq

/-- The on-chain state `mint_strategy_nft` touches: the collection config,
the `StrategyNftData` PDAs keyed by `strategy_id`, and the lamport balances
of the payer and of the fee-receiving treasury account. -/
structure NftWorld where
  config : CollectionConfig
  records : List (String × StrategyNftData)
  payer_lamports : Nat
  treasury_lamports : Nat
deriving Repr, DecidableEq

/-- `initialize_collection` (lib.rs 19-40): the fresh config, with the
default price of 0.1 SOL. -/
def initialize_collection (authority : Pubkey) (bump : Nat) : CollectionConfig :=
  { authority := authority
    total_minted := 0
    mint_price_lamports := 100000000
    is_active := true
    bump := bump }

/-- `mint_strategy_nft` (lib.rs 43-186).  The Anchor `init` of the
`strategy_nft` PDA (seeds `["strategy_nft", strategy_id]`) runs before the
handler body, so a duplicate `strategy_id` fails first; then the handler
checks `is_active`, transfers the fee, performs the token/metadata/edition
CPIs (they act on accounts outside this state and, when the accounts are
fresh as Anchor requires, succeed without touching it), persists the record
and increments `total_minted` with `checked_add`. -/
def mint_strategy_nft (w : NftWorld) (payer mint_key : Pubkey) (now : Int)
    (bump : Nat) (args : MintArgs) : Except MetaNftError NftWorld :=
  if (w.records.lookup args.strategy_id).isSome then .error .DuplicateCreation
  else if w.config.is_active = false then .error .MintingPaused
  else
    let required_lamports := w.config.mint_price_lamports
    if w.payer_lamports < required_lamports then .error .TransferFailed
    else
      let strategy_nft : StrategyNftData :=
        { mint := mint_key
          strategy_id := args.strategy_id
          genes_hash := args.genes_hash
          owner := payer
          minted_at := now
          mint_price := required_lamports
          archetype := args.archetype
          generation := args.generation
          fitness_score := args.fitness_score
          total_pnl := args.total_pnl
          win_rate := args.win_rate
          trades_executed := args.trades_executed
          bump := bump }
      match checked_add64 w.config.total_minted 1 with
      | none => .error .ArithmeticFault
      | some n =>
          .ok { config := { w.config with total_minted := n }
                records := (args.strategy_id, strategy_nft) :: w.records
                payer_lamports := w.payer_lamports - required_lamports
                treasury_lamports := w.treasury_lamports + required_lamports }

/-- The `MintPriceUpdated` event (lib.rs 383-388). -/
structure MintPriceUpdated where
  old_price : Nat
  new_price : Nat
  timestamp : Int
deriving Repr, DecidableEq

/-- The `MintingToggled` event (lib.rs 390-394): it has no field for the
previous value of `is_active`. -/
structure MintingToggled where
  is_active : Bool
  timestamp : Int
deriving Repr, DecidableEq

/-- The `AuthorityTransferred` event (lib.rs 396-401). -/
structure AuthorityTransferred where
  old_authority : Pubkey
  new_authority : Pubkey
  timestamp : Int
deriving Repr, DecidableEq

/-- `update_mint_price` (lib.rs 189-201).  `signer` is the `authority`
signer of `UpdateConfig`, checked by
`constraint = authority.key() == collection_config.authority
@ MetaNftError::Unauthorized` before the handler runs. -/
def update_mint_price (signer : Pubkey) (c : CollectionConfig) (now : Int)
    (new_price : Nat) : Except MetaNftError (CollectionConfig × MintPriceUpdated) :=
  if signer ≠ c.authority then .error .Unauthorized
  else .ok ({ c with mint_price_lamports := new_price },
            { old_price := c.mint_price_lamports
              new_price := new_price
              timestamp := now })

/-- `toggle_minting` (lib.rs 204-214), through the same `UpdateConfig`
accounts. -/
def toggle_minting (signer : Pubkey) (c : CollectionConfig) (now : Int)
    (is_active : Bool) : Except MetaNftError (CollectionConfig × MintingToggled) :=
  if signer ≠ c.authority then .error .Unauthorized
  else .ok ({ c with is_active := is_active },
            { is_active := is_active, timestamp := now })

/-- `transfer_authority` (lib.rs 217-229), through the same `UpdateConfig`
accounts. -/
def transfer_authority (signer : Pubkey) (c : CollectionConfig) (now : Int)
    (new_authority : Pubkey) :
    Except MetaNftError (CollectionConfig × AuthorityTransferred) :=
  if signer ≠ c.authority then .error .Unauthorized
  else .ok ({ c with authority := new_authority },
            { old_authority := c.authority
              new_authority := new_authority
              timestamp := now })

/-- Inversion for a successful `mint_strategy_nft`. -/
theorem mint_strategy_nft_ok_inv {w : NftWorld} {payer mint_key : Pubkey}
    {now : Int} {bump : Nat} {args : MintArgs} {w' : NftWorld}
    (h : mint_strategy_nft w payer mint_key now bump args = .ok w') :
    (w.records.lookup args.strategy_id) = none ∧ w.config.is_active = true ∧
    w.config.mint_price_lamports ≤ w.payer_lamports ∧
    w.config.total_minted + 1 < U64_MOD ∧
    w'.config = { w.config with total_minted := w.config.total_minted + 1 } ∧
    w'.payer_lamports = w.payer_lamports - w.config.mint_price_lamports ∧
    w'.treasury_lamports = w.treasury_lamports + w.config.mint_price_lamports := by
  unfold mint_strategy_nft at h
  split at h
  · simp at h
  rename_i h1
  split at h
  · simp at h
  rename_i h2
  simp only [] at h
  split at h
  · simp at h
  rename_i h3
  push_neg at h3
  split at h
  case h_1 => simp at h
  rename_i n heq
  unfold checked_add64 at heq
  split at heq
  case isFalse => simp at heq
  injection heq with e
  simp only [Except.ok.injEq] at h
  subst e
  refine ⟨Option.not_isSome_iff_eq_none.mp h1, by simpa using h2, h3,
    by assumption, ?_, ?_, ?_⟩
  · rw [← h]
  · rw [← h]
  · rw [← h]

/-! ### Concrete states used by counterexamples and witnesses -/

/-- The treasury right after `initialize_treasury 1 2 0 0` followed by
`add_profits 1 _ 500`. -/
def middleTreasury : TreasuryState :=
  { authority := 1
    emergency_multisig := 2
    total_sol := 500
    profit_pool := 500
    is_initialized := true
    bump := 0 }

/-- The treasury after additionally running `withdraw_emergency 2 _ 300` on
`middleTreasury`: its profit pool (500) exceeds its total balance (200). -/
def skewedTreasury : TreasuryState :=
  { authority := 1
    emergency_multisig := 2
    total_sol := 200
    profit_pool := 500
    is_initialized := true
    bump := 0 }

/-- An uninitialized treasury record (all guards except initialization would
pass for it). -/
def uninitTreasury : TreasuryState :=
  { authority := 1
    emergency_multisig := 2
    total_sol := 0
    profit_pool := 0
    is_initialized := false
    bump := 0 }

/-- An initialized treasury with equal pool and balance of 1000, matching the
spec's worked example. -/
def fullTreasury : TreasuryState :=
  { authority := 1
    emergency_multisig := 2
    total_sol := 1000
    profit_pool := 1000
    is_initialized := true
    bump := 0 }

/-! ### Claim theorems -/

/-- C1 counterexample: `skewedTreasury` is reachable by
`initialize_treasury 1 2 0 0`, `add_profits 1 _ 500`,
`withdraw_emergency 2 _ 300`, and it violates
`profit_pool ≤ total_sol` (500 > 200): the claimed invariant does not hold
for every reachable state. -/
theorem c1_invariant_counterexample :
    Reachable skewedTreasury ∧
    ¬ skewedTreasury.profit_pool ≤ skewedTreasury.total_sol := by
  constructor
  · have h0 : Reachable (initialize_treasury 1 2 0 0) :=
      Reachable.init 1 2 0 0 (by norm_num [U64_MOD])
    have h1 : Reachable middleTreasury :=
      @Reachable.add (initialize_treasury 1 2 0 0) middleTreasury 1 500 h0
        (by decide)
    exact @Reachable.withdraw middleTreasury (skewedTreasury, 300) 2 300 h1
      (by decide)
  · decide

/-- C1 (amended): the invariant `profit_pool ≤ total_sol` holds after
`initialize_treasury` and is preserved by every successful `add_profits`,
`distribute_profits` and `update_multisig`; `withdraw_emergency` preserves
it only under the extra condition `profit_pool + amount ≤ total_sol` (the
handler checks the amount against `total_sol` alone, so a larger emergency
withdrawal breaks the invariant, as the counterexample shows). -/
theorem c1_invariant_amended :
    (∀ a m : Pubkey, ∀ amount bump : Nat,
      (initialize_treasury a m amount bump).profit_pool ≤
        (initialize_treasury a m amount bump).total_sol)
    ∧ (∀ signer : Pubkey, ∀ t : TreasuryState, ∀ amount : Nat,
        ∀ t' : TreasuryState, t.profit_pool ≤ t.total_sol →
        add_profits signer t amount = .ok t' →
        t'.profit_pool ≤ t'.total_sol)
    ∧ (∀ signer : Pubkey, ∀ t : TreasuryState, ∀ bps : Nat,
        ∀ r : TreasuryState × Nat, t.profit_pool ≤ t.total_sol →
        distribute_profits signer t bps = .ok r →
        r.1.profit_pool ≤ r.1.total_sol)
    ∧ (∀ signer nm : Pubkey, ∀ t : TreasuryState, ∀ t' : TreasuryState,
        t.profit_pool ≤ t.total_sol →
        update_multisig signer t nm = .ok t' →
        t'.profit_pool ≤ t'.total_sol)
    ∧ (∀ signer : Pubkey, ∀ t : TreasuryState, ∀ amount : Nat,
        ∀ r : TreasuryState × Nat, t.profit_pool ≤ t.total_sol →
        t.profit_pool + amount ≤ t.total_sol →
        withdraw_emergency signer t amount = .ok r →
        r.1.profit_pool ≤ r.1.total_sol) := by
  refine ⟨?_, ?_, ?_, ?_, ?_⟩
  · intro a m amount bump
    simp [initialize_treasury]
  · intro signer t amount t' hinv h
    obtain ⟨-, -, -, -, -, ht'⟩ := add_profits_ok_inv h
    subst ht'
    simpa using Nat.add_le_add_right hinv amount
  · intro signer t bps r hinv h
    obtain ⟨-, -, -, -, -, -, hdp, hdt, hr⟩ := distribute_profits_ok_inv h
    subst hr
    simp only []
    omega
  · intro signer nm t t' hinv h
    obtain ⟨-, -, ht'⟩ := update_multisig_ok_inv h
    subst ht'
    simpa using hinv
  · intro signer t amount r hinv hroom h
    obtain ⟨-, -, -, hle, hr⟩ := withdraw_emergency_ok_inv h
    subst hr
    simp only []
    omega

/-- C1 witness: the `add_profits` clause of the amended invariant theorem,
applied to the concrete step `initialize_treasury 1 2 0 0` →
`add_profits 1 _ 500` → `middleTreasury`. -/
theorem c1_invariant_amended_witness :
    middleTreasury.profit_pool ≤ middleTreasury.total_sol :=
  c1_invariant_amended.2.1 1 (initialize_treasury 1 2 0 0) 500 middleTreasury
    (by decide) (by decide)

/-- C2 counterexample: `skewedTreasury` is a reachable, initialized treasury
with `profit_pool = 500 > 0`, and `holder_share_bps = 10000` satisfies
`0 < bps ≤ 10000` with `floor(500 * 10000 / 10000) = 500 > 0`, yet
`distribute_profits` aborts on the checked subtraction from `total_sol = 200`
instead of succeeding: the claim fails for this initialized treasury. -/
theorem c2_distribute_counterexample :
    Reachable skewedTreasury ∧
    skewedTreasury.is_initialized = true ∧
    0 < skewedTreasury.profit_pool ∧
    0 < skewedTreasury.profit_pool * 10000 / 10000 ∧
    distribute_profits 1 skewedTreasury 10000 = .error .ArithmeticFault := by
  refine ⟨?_, by decide, by decide, by decide, by decide⟩
  have h0 : Reachable (initialize_treasury 1 2 0 0) :=
    Reachable.init 1 2 0 0 (by norm_num [U64_MOD])
  have h1 : Reachable middleTreasury :=
    @Reachable.add (initialize_treasury 1 2 0 0) middleTreasury 1 500 h0
      (by decide)
  exact @Reachable.withdraw middleTreasury (skewedTreasury, 300) 2 300 h1
    (by decide)

/-- C2 (amended): for every initialized treasury that additionally satisfies
the intended invariant `profit_pool ≤ total_sol` (with `profit_pool` a `u64`
value), and every `holder_share_bps` with `0 < bps ≤ 10000` and
`floor(profit_pool * bps / 10000) > 0`, `distribute_profits` succeeds, pays
out exactly `floor(profit_pool * bps / 10000)` (computed in the widened
128-bit intermediate without overflow), and decrements both `profit_pool`
and `total_sol` by exactly that amount. -/
theorem c2_distribute_correct (signer : Pubkey) (t : TreasuryState) (b : Nat)
    (hsig : signer = t.authority) (hinit : t.is_initialized = true)
    (hpool : 0 < t.profit_pool) (hwf : t.profit_pool ≤ t.total_sol)
    (hlt : t.profit_pool < U64_MOD) (hb0 : 0 < b) (hble : b ≤ 10000)
    (hd : 0 < t.profit_pool * b / 10000) :
    distribute_profits signer t b
      = .ok ({ t with
                profit_pool := t.profit_pool - t.profit_pool * b / 10000,
                total_sol := t.total_sol - t.profit_pool * b / 10000 },
             t.profit_pool * b / 10000) :=
  distribute_profits_eq_ok hsig hinit hpool hwf hlt hb0 hble hd

/-- C2 witness: the spec's worked example, `profit_pool = 1000`,
`bps = 2500`: the distribution is 250 and the remaining pool is 750. -/
theorem c2_distribute_correct_witness :
    distribute_profits 1 fullTreasury 2500
      = .ok ({ fullTreasury with profit_pool := 750, total_sol := 750 }, 250) := by
  have h := c2_distribute_correct 1 fullTreasury 2500 rfl rfl (by decide)
    (by decide) (by norm_num [fullTreasury, U64_MOD]) (by decide) (by decide)
    (by decide)
  simpa using h

/-- C4: after `update_multisig` installs `new_sig` as the emergency
authority, a `withdraw_emergency` signed by the old emergency authority
fails the multisig account constraint, while the same withdrawal signed by
`new_sig` succeeds (the other preconditions being met). -/
theorem c4_multisig_rotation (t : TreasuryState) (new_sig : Pubkey)
    (amount : Nat) (t' : TreasuryState)
    (hinit : t.is_initialized = true)
    (hupd : update_multisig t.emergency_multisig t new_sig = .ok t')
    (hne : t.emergency_multisig ≠ new_sig)
    (h0 : 0 < amount) (hle : amount ≤ t.total_sol) :
    withdraw_emergency t.emergency_multisig t' amount
      = .error .ConstraintViolation
    ∧ withdraw_emergency new_sig t' amount
        = .ok ({ t' with total_sol := t'.total_sol - amount }, amount) := by
  obtain ⟨-, -, ht'⟩ := update_multisig_ok_inv hupd
  subst ht'
  constructor
  · unfold withdraw_emergency
    rw [if_pos (by simpa using hne)]
  · exact withdraw_emergency_eq_ok rfl (by simpa using hinit) h0
      (by simpa using hle)

/-- C4 witness: rotating `middleTreasury`'s emergency authority from 2 to 3,
the old authority's withdrawal of 100 fails and the new authority's
identical withdrawal succeeds. -/
theorem c4_multisig_rotation_witness :
    withdraw_emergency 2 { middleTreasury with emergency_multisig := 3 } 100
      = .error .ConstraintViolation
    ∧ withdraw_emergency 3 { middleTreasury with emergency_multisig := 3 } 100
        = .ok ({ middleTreasury with emergency_multisig := 3, total_sol := 400 },
               100) :=
  c4_multisig_rotation middleTreasury 3 100
    { middleTreasury with emergency_multisig := 3 }
    (by decide) (by decide) (by decide) (by decide) (by decide)

/-- C5: for an initialized treasury and the registered emergency signer,
`withdraw_emergency amount` fails with `InsufficientFunds` unless
`0 < amount ≤ total_sol`; every success happens exactly under that
precondition, moves out `amount`, decrements `total_sol` by `amount`, and
leaves `profit_pool`, `authority` and `emergency_multisig` unchanged. -/
theorem c5_withdraw_correct (signer : Pubkey) (t : TreasuryState)
    (amount : Nat) (hsig : signer = t.emergency_multisig)
    (hinit : t.is_initialized = true) :
    (¬ (0 < amount ∧ amount ≤ t.total_sol) →
      withdraw_emergency signer t amount = .error .InsufficientFunds)
    ∧ (∀ r : TreasuryState × Nat, withdraw_emergency signer t amount = .ok r →
        0 < amount ∧ amount ≤ t.total_sol ∧
        r.1.total_sol = t.total_sol - amount ∧ r.2 = amount ∧
        r.1.profit_pool = t.profit_pool ∧ r.1.authority = t.authority ∧
        r.1.emergency_multisig = t.emergency_multisig)
    ∧ ((0 < amount ∧ amount ≤ t.total_sol) →
      withdraw_emergency signer t amount
        = .ok ({ t with total_sol := t.total_sol - amount }, amount)) := by
  refine ⟨?_, ?_, ?_⟩
  · intro hnot
    unfold withdraw_emergency
    rw [if_neg (by simp [hsig]), if_neg (by simp [hinit]), if_pos hnot]
  · intro r h
    obtain ⟨-, -, h0, hle, hr⟩ := withdraw_emergency_ok_inv h
    subst hr
    exact ⟨h0, hle, rfl, rfl, rfl, rfl, rfl⟩
  · intro hok
    exact withdraw_emergency_eq_ok hsig hinit hok.1 hok.2

/-- C5 witness: on `middleTreasury` (balance 500), a withdrawal of 600 fails
with `InsufficientFunds`, a withdrawal of 0 fails with `InsufficientFunds`,
and a withdrawal of 300 succeeds leaving balance 200 with the pool and both
authorities untouched. -/
theorem c5_withdraw_correct_witness :
    withdraw_emergency 2 middleTreasury 600 = .error .InsufficientFunds
    ∧ withdraw_emergency 2 middleTreasury 0 = .error .InsufficientFunds
    ∧ withdraw_emergency 2 middleTreasury 300
        = .ok ({ middleTreasury with total_sol := 200 }, 300) :=
  ⟨(c5_withdraw_correct 2 middleTreasury 600 (by decide) (by decide)).1
      (by decide),
   (c5_withdraw_correct 2 middleTreasury 0 (by decide) (by decide)).1
      (by decide),
   (c5_withdraw_correct 2 middleTreasury 300 (by decide) (by decide)).2.2
      (by decide)⟩

/-- C6 counterexample: on an uninitialized treasury (and likewise whenever an
earlier guard fires) `distribute_profits` with `holder_share_bps = 0` fails
with `NotInitialized`, not with `InvalidShare`: the claim's error code is not
the one produced for every treasury state. -/
theorem c6_invalid_share_counterexample :
    distribute_profits 1 uninitTreasury 0 = .error .NotInitialized
    ∧ distribute_profits 1 uninitTreasury 0 ≠ .error .InvalidShare := by
  decide

/-- C6 (amended): with `holder_share_bps = 0` or `> 10000`,
`distribute_profits` never succeeds — so it changes no state — and it fails
with exactly `InvalidShare` whenever the guards checked before the share
check pass (authorized signer, initialized, non-empty pool); otherwise the
earlier guard's error (`ConstraintViolation`, `NotInitialized`, `NoProfits`)
is reported instead. -/
theorem c6_invalid_share_rejected (signer : Pubkey) (t : TreasuryState)
    (b : Nat) (hb : b = 0 ∨ 10000 < b) :
    (∀ r : TreasuryState × Nat, distribute_profits signer t b ≠ .ok r)
    ∧ (signer = t.authority → t.is_initialized = true → 0 < t.profit_pool →
        distribute_profits signer t b = .error .InvalidShare) := by
  constructor
  · intro r h
    obtain ⟨-, -, -, hb0, hble, -⟩ := distribute_profits_ok_inv h
    rcases hb with h0 | h0 <;> omega
  · intro hsig hinit hpool
    exact distribute_profits_bad_share_error hsig hinit hpool hb

/-- C6 witness: on `middleTreasury`, `bps = 10001` fails with `InvalidShare`
(and in particular does not succeed). -/
theorem c6_invalid_share_rejected_witness :
    distribute_profits 1 middleTreasury 10001 = .error .InvalidShare :=
  (c6_invalid_share_rejected 1 middleTreasury 10001 (by decide)).2
    (by decide) (by decide) (by decide)

/-- C9: no treasury instruction other than initialization writes
`TreasuryState.authority`: every successful `add_profits`,
`distribute_profits`, `withdraw_emergency` and `update_multisig` leaves it
unchanged. -/
theorem c9_authority_immutable :
    (∀ signer : Pubkey, ∀ t : TreasuryState, ∀ amount : Nat,
      ∀ t' : TreasuryState, add_profits signer t amount = .ok t' →
      t'.authority = t.authority)
    ∧ (∀ signer : Pubkey, ∀ t : TreasuryState, ∀ bps : Nat,
        ∀ r : TreasuryState × Nat, distribute_profits signer t bps = .ok r →
        r.1.authority = t.authority)
    ∧ (∀ signer : Pubkey, ∀ t : TreasuryState, ∀ amount : Nat,
        ∀ r : TreasuryState × Nat, withdraw_emergency signer t amount = .ok r →
        r.1.authority = t.authority)
    ∧ (∀ signer nm : Pubkey, ∀ t : TreasuryState, ∀ t' : TreasuryState,
        update_multisig signer t nm = .ok t' → t'.authority = t.authority) := by
  refine ⟨?_, ?_, ?_, ?_⟩
  · intro signer t amount t' h
    obtain ⟨-, -, -, -, -, ht'⟩ := add_profits_ok_inv h
    subst ht'
    rfl
  · intro signer t bps r h
    obtain ⟨-, -, -, -, -, -, -, -, hr⟩ := distribute_profits_ok_inv h
    subst hr
    rfl
  · intro signer t amount r h
    obtain ⟨-, -, -, -, hr⟩ := withdraw_emergency_ok_inv h
    subst hr
    rfl
  · intro signer nm t t' h
    obtain ⟨-, -, ht'⟩ := update_multisig_ok_inv h
    subst ht'
    rfl

/-- C9 witness: the `update_multisig` clause at a concrete rotation keeps
`authority = 1`. -/
theorem c9_authority_immutable_witness :
    ({ middleTreasury with emergency_multisig := 3 } : TreasuryState).authority
      = middleTreasury.authority :=
  c9_authority_immutable.2.2.2 2 3 middleTreasury
    { middleTreasury with emergency_multisig := 3 } (by decide)

/-- C10: both profit flows preserve `total_sol - profit_pool`: a successful
`add_profits` raises both fields by the same amount and a successful
`distribute_profits` lowers both by the same amount, so the non-profit
portion of the balance is untouched. -/
theorem c10_gap_preserved :
    (∀ signer : Pubkey, ∀ t : TreasuryState, ∀ amount : Nat,
      ∀ t' : TreasuryState, add_profits signer t amount = .ok t' →
      (t'.total_sol : ℤ) - t'.profit_pool
        = (t.total_sol : ℤ) - t.profit_pool)
    ∧ (∀ signer : Pubkey, ∀ t : TreasuryState, ∀ bps : Nat,
        ∀ r : TreasuryState × Nat, distribute_profits signer t bps = .ok r →
        (r.1.total_sol : ℤ) - r.1.profit_pool
          = (t.total_sol : ℤ) - t.profit_pool) := by
  constructor
  · intro signer t amount t' h
    obtain ⟨-, -, -, -, -, ht'⟩ := add_profits_ok_inv h
    subst ht'
    simp only []
    push_cast
    ring
  · intro signer t bps r h
    obtain ⟨-, -, -, -, -, -, hdp, hdt, hr⟩ := distribute_profits_ok_inv h
    subst hr
    simp only []
    omega

/-- C10 witness: the `add_profits` clause at the concrete step from
`initialize_treasury 1 2 0 0` to `middleTreasury`. -/
theorem c10_gap_preserved_witness :
    (middleTreasury.total_sol : ℤ) - middleTreasury.profit_pool
      = ((initialize_treasury 1 2 0 0).total_sol : ℤ)
          - (initialize_treasury 1 2 0 0).profit_pool :=
  c10_gap_preserved.1 1 (initialize_treasury 1 2 0 0) 500 middleTreasury
    (by decide)

/-- A freshly initialized collection config, authority 1. -/
def cfgActive : CollectionConfig := initialize_collection 1 0

/-- The same config with minting paused. -/
def cfgPaused : CollectionConfig := { cfgActive with is_active := false }

/-- A world with a fresh active collection, no records, and a payer able to
cover the default mint fee. -/
def freshWorld : NftWorld :=
  { config := cfgActive
    records := []
    payer_lamports := 100000000
    treasury_lamports := 0 }

/-- The same world with minting paused. -/
def pausedWorld : NftWorld := { freshWorld with config := cfgPaused }

/-- Sample mint arguments. -/
def sampleArgs : MintArgs :=
  { strategy_id := "strat-1"
    genes_hash := "0xabc"
    name := "Strategy 1"
    symbol := "STRAT"
    uri := "https://x/1.json"
    archetype := "momentum"
    generation := 3
    fitness_score := 77
    total_pnl := -5
    win_rate := 60
    trades_executed := 42 }

/-- C3 counterexample: toggling two configs that differ only in the old
value of `is_active` to the same new value emits identical `MintingToggled`
notifications, so `toggle_minting`'s notification does not carry the old
value of the mutated field (the event has no field for it). -/
theorem c3_toggle_counterexample :
    cfgActive.is_active ≠ cfgPaused.is_active
    ∧ (toggle_minting 1 cfgActive 0 false).map Prod.snd
        = (toggle_minting 1 cfgPaused 0 false).map Prod.snd := by
  decide

/-- C3 (amended): each configuration mutator fails with `Unauthorized`
whenever the signer differs from `CollectionConfig.authority`; on success,
`update_mint_price`'s notification carries the old and the new price and
`transfer_authority`'s carries the old and the new authority, while
`toggle_minting`'s notification carries only the new value of `is_active`
(and the timestamp), not the old one. -/
theorem c3_config_mutators (signer : Pubkey) (c : CollectionConfig)
    (now : Int) (p : Nat) (v : Bool) (na : Pubkey) :
    (signer ≠ c.authority →
      update_mint_price signer c now p = .error .Unauthorized
      ∧ toggle_minting signer c now v = .error .Unauthorized
      ∧ transfer_authority signer c now na = .error .Unauthorized)
    ∧ (signer = c.authority →
      update_mint_price signer c now p
        = .ok ({ c with mint_price_lamports := p },
               { old_price := c.mint_price_lamports, new_price := p,
                 timestamp := now })
      ∧ transfer_authority signer c now na
        = .ok ({ c with authority := na },
               { old_authority := c.authority, new_authority := na,
                 timestamp := now })
      ∧ toggle_minting signer c now v
        = .ok ({ c with is_active := v },
               { is_active := v, timestamp := now })) := by
  constructor
  · intro hne
    refine ⟨?_, ?_, ?_⟩
    · unfold update_mint_price
      rw [if_pos hne]
    · unfold toggle_minting
      rw [if_pos hne]
    · unfold transfer_authority
      rw [if_pos hne]
  · intro heq
    refine ⟨?_, ?_, ?_⟩
    · unfold update_mint_price
      rw [if_neg (by simp [heq])]
    · unfold transfer_authority
      rw [if_neg (by simp [heq])]
    · unfold toggle_minting
      rw [if_neg (by simp [heq])]

/-- C3 witness: on `cfgActive` (authority 1), signer 9 is rejected with
`Unauthorized` by all three mutators, and signer 1's `update_mint_price` to
55 emits the old price 100000000 together with the new price 55. -/
theorem c3_config_mutators_witness :
    update_mint_price 9 cfgActive 0 55 = .error .Unauthorized
    ∧ toggle_minting 9 cfgActive 0 false = .error .Unauthorized
    ∧ transfer_authority 9 cfgActive 0 7 = .error .Unauthorized
    ∧ update_mint_price 1 cfgActive 0 55
        = .ok ({ cfgActive with mint_price_lamports := 55 },
               { old_price := 100000000, new_price := 55, timestamp := 0 }) :=
  ⟨((c3_config_mutators 9 cfgActive 0 55 false 7).1 (by decide)).1,
   ((c3_config_mutators 9 cfgActive 0 55 false 7).1 (by decide)).2.1,
   ((c3_config_mutators 9 cfgActive 0 55 false 7).1 (by decide)).2.2,
   ((c3_config_mutators 1 cfgActive 0 55 false 7).2 (by decide)).1⟩

/-- C7: when `is_active = false` (and the strategy record does not already
exist, so the Anchor `init` that runs first does not fail instead),
`mint_strategy_nft` fails with `MintingPaused`; as the handler returns an
error, the transaction rolls back and no fee transfer, token creation,
record persistence or `total_minted` change survives. -/
theorem c7_mint_paused (w : NftWorld) (payer mint_key : Pubkey) (now : Int)
    (bump : Nat) (args : MintArgs)
    (hpaused : w.config.is_active = false)
    (hfresh : w.records.lookup args.strategy_id = none) :
    mint_strategy_nft w payer mint_key now bump args = .error .MintingPaused := by
  unfold mint_strategy_nft
  rw [if_neg (by simp [hfresh]), if_pos hpaused]

/-- C7 witness: minting `sampleArgs` into `pausedWorld` fails with
`MintingPaused`. -/
theorem c7_mint_paused_witness :
    mint_strategy_nft pausedWorld 7 8 0 0 sampleArgs = .error .MintingPaused :=
  c7_mint_paused pausedWorld 7 8 0 0 sampleArgs (by decide) (by decide)

/-- C8: `total_minted` never decreases: every successful `mint_strategy_nft`
raises it by exactly 1 through `checked_add`, the three configuration
mutators leave it unchanged, and when the increment would overflow `u64`
the mint aborts rather than wrapping (it never succeeds). -/
theorem c8_total_minted_monotone :
    (∀ w : NftWorld, ∀ payer mint_key : Pubkey, ∀ now : Int, ∀ bump : Nat,
      ∀ args : MintArgs, ∀ w' : NftWorld,
      mint_strategy_nft w payer mint_key now bump args = .ok w' →
      w'.config.total_minted = w.config.total_minted + 1)
    ∧ (∀ signer : Pubkey, ∀ c : CollectionConfig, ∀ now : Int, ∀ p : Nat,
        ∀ r : CollectionConfig × MintPriceUpdated,
        update_mint_price signer c now p = .ok r →
        r.1.total_minted = c.total_minted)
    ∧ (∀ signer : Pubkey, ∀ c : CollectionConfig, ∀ now : Int, ∀ v : Bool,
        ∀ r : CollectionConfig × MintingToggled,
        toggle_minting signer c now v = .ok r →
        r.1.total_minted = c.total_minted)
    ∧ (∀ signer na : Pubkey, ∀ c : CollectionConfig, ∀ now : Int,
        ∀ r : CollectionConfig × AuthorityTransferred,
        transfer_authority signer c now na = .ok r →
        r.1.total_minted = c.total_minted)
    ∧ (∀ w : NftWorld, ∀ payer mint_key : Pubkey, ∀ now : Int, ∀ bump : Nat,
        ∀ args : MintArgs, U64_MOD ≤ w.config.total_minted + 1 →
        ∀ w' : NftWorld,
        mint_strategy_nft w payer mint_key now bump args ≠ .ok w') := by
  refine ⟨?_, ?_, ?_, ?_, ?_⟩
  · intro w payer mint_key now bump args w' h
    obtain ⟨-, -, -, -, hc, -, -⟩ := mint_strategy_nft_ok_inv h
    rw [hc]
  · intro signer c now p r h
    unfold update_mint_price at h
    split at h
    · simp at h
    simp only [Except.ok.injEq] at h
    rw [← h]
  · intro signer c now v r h
    unfold toggle_minting at h
    split at h
    · simp at h
    simp only [Except.ok.injEq] at h
    rw [← h]
  · intro signer na c now r h
    unfold transfer_authority at h
    split at h
    · simp at h
    simp only [Except.ok.injEq] at h
    rw [← h]
  · intro w payer mint_key now bump args hover w' h
    obtain ⟨-, -, -, hlt, -, -, -⟩ := mint_strategy_nft_ok_inv h
    omega

/-- C8 witness: the first clause at a concrete successful mint on
`freshWorld`, whose counter goes from 0 to 1. -/
theorem c8_total_minted_monotone_witness :
    ({ config := { cfgActive with total_minted := 1 }
       records := [("strat-1",
         { mint := 8
           strategy_id := "strat-1"
           genes_hash := "0xabc"
           owner := 7
           minted_at := 0
           mint_price := 100000000
           archetype := "momentum"
           generation := 3
           fitness_score := 77
           total_pnl := -5
           win_rate := 60
           trades_executed := 42
           bump := 0 })]
       payer_lamports := 0
       treasury_lamports := 100000000 } : NftWorld).config.total_minted
      = freshWorld.config.total_minted + 1 :=
  c8_total_minted_monotone.1 freshWorld 7 8 0 0 sampleArgs _ (by decide)

end Hive
